import Mathlib

/-!
Verification of the QLightST56EL driver (QLightLamp/lamps/qlight_st56el.py).

The Python source is shallowly embedded: bytes become `List Nat` (each
element an unsigned byte value), Python exceptions become the `PyError`
inductive carried in `Except`, and the straight-line methods of the
`QLightST56EL` class become Lean functions of the same names.  Network
transport is modelled by an explicit environment that records which socket
operation (connect / sendall / recv) raises, so that the control flow of
`_communicate` around `sock.close()` is captured exactly.
-/

/-- Python exceptions that the embedded code can raise.  `assertionError`
backs both of the spec failure names `InvalidArgument` and
`MalformedResponse`, which the source realises as `assert` statements. -/
inductive PyError where
  | assertionError
  | indexError
  | keyError
  | typeError
  | valueError
  | connectionError
  | timeoutError
  deriving DecidableEq

/-! ## Class constants (QLightST56EL) -/

def CMD_READ : Nat := 0x52

def CMD_WRITE : Nat := 0x57

def CMD_LAMP_OFF : Nat := 0x00

def CMD_LAMP_ON : Nat := 0x01

def CMD_LAMP_BLINK : Nat := 0x02

def CMD_SOUND_GROUPS : List Nat := [0x00, 0x01, 0x02, 0x03, 0x04]

def CMD_SOUNDS : List Nat := [0x01, 0x02, 0x03, 0x04, 0x05]

def RESP_ACK : Nat := 0x41

def ARG_LAMP_OFF : String := "off"

def ARG_LAMP_ON : String := "on"

def ARG_LAMP_BLINK : String := "blink"

/-- `LAMP_ARG_CMD_MAP.get(k)`: dict lookup returning `none` when absent
(also when the key is Python `None`). -/
def LAMP_ARG_CMD_MAP (arg : Option String) : Option Nat :=
  if arg = some ARG_LAMP_OFF then some CMD_LAMP_OFF
  else if arg = some ARG_LAMP_ON then some CMD_LAMP_ON
  else if arg = some ARG_LAMP_BLINK then some CMD_LAMP_BLINK
  else none

/-- `LAMP_CMD_ARG_MAP.get(c, default)` backing map. -/
def LAMP_CMD_ARG_MAP (c : Nat) : Option String :=
  if c = CMD_LAMP_OFF then some ARG_LAMP_OFF
  else if c = CMD_LAMP_ON then some ARG_LAMP_ON
  else if c = CMD_LAMP_BLINK then some ARG_LAMP_BLINK
  else none

/-- Python truthiness of an `Optional[str]`: `None` and the empty string
are falsy, every other string is truthy. -/
def pyTruthy (x : Option String) : Bool :=
  match x with
  | none => false
  | some s => s.length != 0

/-! ## Command encoder: `QLightST56EL._format_message` -/

/-- `_format_message(write, red_lamp_state)`.

Mirrors the source line by line: the first `assert` rejects a truthy lamp
state on a read, the second rejects a write whose state is not one of
`"blink"`, `"off"`, `"on"`; the `bytes([...])` literal then builds the
10-byte frame, with byte 2 looked up through `LAMP_ARG_CMD_MAP.get` on a
write.  (`bytes` would raise `TypeError` if that lookup returned `None`,
which the second assert makes unreachable.) -/
def formatMessage (write : Bool) (red_lamp_state : Option String) :
    Except PyError (List Nat) :=
  if !write && pyTruthy red_lamp_state then .error .assertionError
  else if write &&
      !([some ARG_LAMP_BLINK, some ARG_LAMP_OFF, some ARG_LAMP_ON].contains
          red_lamp_state) then
    .error .assertionError
  else
    match (if write then LAMP_ARG_CMD_MAP red_lamp_state else some 0x00) with
    | none => .error .typeError
    | some c =>
        .ok [if write then CMD_WRITE else CMD_READ,
             0x00, c, 0x00, 0x00, 0x00, 0x00, 0x00, 0x00, 0x00]

/-! ## Response decoding: `QLightST56EL.Response.__init__` -/

/-- Decoded view of a reply frame, one field per attribute set by
`Response.__init__`. -/
structure Response where
  buf : List Nat
  is_ack : Bool
  sound_group : Nat
  lamp_state_red : Nat
  lamp_state_amber : Nat
  lamp_state_green : Nat
  lamp_state_blue : Nat
  lamp_state_white : Nat
  sound_channel : Nat
  spare_0 : Nat
  spare_1 : Nat
  deriving DecidableEq

/-- `Response.__init__(b)`.

The constructor first runs
`assert not b or len(b) == 10` (so a non-empty, non-10-byte reply raises
`AssertionError`), then indexes `b[0]`, `b[1]`, ..., `b[9]`.  On an empty
input the assert passes but `b[0]` raises `IndexError`.  On a 10-byte input
every index is in range, so `b.getD i 0` below is exactly `b[i]`. -/
def decode (b : List Nat) : Except PyError Response :=
  if b.length = 0 || b.length = 10 then
    if b.length = 0 then .error .indexError
    else
      .ok { buf := b
            is_ack := decide (b.getD 0 0 = RESP_ACK)
            sound_group := b.getD 1 0
            lamp_state_red := b.getD 2 0
            lamp_state_amber := b.getD 3 0
            lamp_state_green := b.getD 4 0
            lamp_state_blue := b.getD 5 0
            lamp_state_white := b.getD 6 0
            sound_channel := b.getD 7 0
            spare_0 := b.getD 8 0
            spare_1 := b.getD 9 0 }
  else .error .assertionError

/-! ## Validation decision: the boolean result of `Response.validate` -/

/-- Membership test of the `for` loop in `validate`:
`lamp_state in [CMD_LAMP_BLINK, CMD_LAMP_OFF, CMD_LAMP_ON]`. -/
def lampStateValid (c : Nat) : Bool :=
  [CMD_LAMP_BLINK, CMD_LAMP_OFF, CMD_LAMP_ON].contains c

/-- The five lamp-state attributes in the order the loop visits them. -/
def Response.lampStates (r : Response) : List Nat :=
  [r.lamp_state_red, r.lamp_state_amber, r.lamp_state_green,
   r.lamp_state_blue, r.lamp_state_white]

/-- The boolean decision of `Response.validate`: the value returned when no
diagnostic print raises.  The guard chain of the source is kept: not an ack
returns `False`; the sound-group check prints only and never fails; the
first invalid lamp state returns `False`; a truthy sound channel outside
`CMD_SOUNDS` returns `False`; a truthy spare byte returns `False`; else
`True`.  (`Response.validateE` below also models the diagnostic prints.) -/
def Response.validate (r : Response) : Bool :=
  if !r.is_ack then false
  else
    match r.lampStates.find? (fun c => !(lampStateValid c)) with
    | some _ => false
    | none =>
        if r.sound_channel != 0 && !(CMD_SOUNDS.contains r.sound_channel) then
          false
        else if r.spare_0 != 0 || r.spare_1 != 0 then false
        else true

/-! ## Python string formatting, as used by the diagnostic f-strings

`validate` and `__str__` interpolate values with format specs.  The specs
appearing in the source are `02X` (valid: zero-padded uppercase hex of
width 2) and `X02` (invalid: CPython raises
`ValueError: Invalid format specifier`), and two f-strings apply `02X` to a
*list*, which `list.__format__` rejects with `TypeError`.  The model below
covers exactly this fragment of the format mini-language:
`[zero-padded width][single type character]`. -/

/-- Uppercase hexadecimal digit character for a value below 16. -/
def hexDigit (n : Nat) : Char :=
  if n < 10 then Char.ofNat (48 + n) else Char.ofNat (55 + n)

/-- Uppercase hexadecimal digits of `n` (fuel-driven so that it reduces in
the kernel; the fuel is ample since the value shrinks by division). -/
def hexChars : Nat → Nat → List Char
  | 0, n => [hexDigit (n % 16)]
  | fuel + 1, n =>
      if n < 16 then [hexDigit n]
      else hexChars fuel (n / 16) ++ [hexDigit (n % 16)]

/-- Numeric value of a digit string such as `"02"`. -/
def digitsVal (cs : List Char) : Nat :=
  cs.foldl (fun a c => a * 10 + (c.toNat - 48)) 0

/-- Parse an `int.__format__` spec of the shape `[width][type]` with the
type one of `d x X b o`; a bare width is plain decimal.  Anything else —
in particular `"X02"`, where a type character is followed by more text —
fails to parse. -/
def parseIntSpec (spec : String) : Option (Nat × Char) :=
  let cs := spec.toList
  let digits := cs.takeWhile Char.isDigit
  let rest := cs.dropWhile Char.isDigit
  match rest with
  | [] => if digits.isEmpty then none else some (digitsVal digits, 'd')
  | [t] =>
      if [ 'd', 'x', 'X', 'b', 'o'].contains t then some (digitsVal digits, t)
      else none
  | _ => none

/-- `format(n, spec)` for a Python int, on the spec fragment above: an
unparsable spec raises `ValueError`; a parsed spec pads the rendered value
with zeros to the requested width (every spec in the source starts with
`0`, so zero padding is the only padding modelled).  Only types `X`
(uppercase hex) and `d` (decimal) are exercised by the source. -/
def pyFormatInt (n : Nat) (spec : String) : Except PyError String :=
  match parseIntSpec spec with
  | none => .error .valueError
  | some (w, t) =>
      let body := if t = 'X' then hexChars n n else (Nat.repr n).toList
      .ok (String.mk (List.replicate (w - body.length) (Char.ofNat 48) ++ body))

/-- `format(xs, spec)` for a Python list: `list.__format__` raises
`TypeError` for any non-empty spec.  (The empty-spec branch, `str(xs)`, is
never reached by the source, which always passes `02X`; its value is left
coarse here.) -/
def pyFormatList (_xs : List Nat) (spec : String) : Except PyError String :=
  if spec.length = 0 then .ok "" else .error .typeError

/-- Zero-padded width-2 uppercase hex, the value of a successful
`format(n, "02X")`. -/
def hex2 (n : Nat) : String :=
  String.mk
    (List.replicate (2 - (hexChars n n).length) (Char.ofNat 48) ++ hexChars n n)

/-- Sequencing of a diagnostic interpolation: if formatting the value
raised, the exception propagates; otherwise the print succeeds and
execution continues with `k`. -/
def fmtThen {α : Type} (f : Except PyError String) (k : Except PyError α) :
    Except PyError α :=
  match f with
  | .error e => .error e
  | .ok _ => k

/-! ## `Response.validate` with its diagnostic prints -/

/-- `Response.validate(quiet)` including the effect of each diagnostic
f-string.  In quiet mode no f-string is evaluated and the function returns
the boolean decision; in non-quiet mode each failing (or advisory) check
first formats its message, whose format specs follow the source exactly:
the not-an-ack message uses the spec `X02` on `self.buf[0]`, the
sound-group advisory and the sound-channel message format a *list* with
`02X`, the lamp-state and spare messages use `02X` on ints. -/
def Response.validateE (r : Response) (quiet : Bool) : Except PyError Bool :=
  if !r.is_ack then
    if !quiet then fmtThen (pyFormatInt (r.buf.headD 0) "X02") (.ok false)
    else .ok false
  else
    let afterGroup : Except PyError Bool :=
      match r.lampStates.find? (fun c => !(lampStateValid c)) with
      | some c =>
          if !quiet then fmtThen (pyFormatInt c "02X") (.ok false)
          else .ok false
      | none =>
          if r.sound_channel != 0 && !(CMD_SOUNDS.contains r.sound_channel) then
            if !quiet then
              fmtThen (pyFormatList CMD_SOUNDS "02X")
                (fmtThen (pyFormatInt r.sound_channel "02X") (.ok false))
            else .ok false
          else if r.spare_0 != 0 || r.spare_1 != 0 then
            if !quiet then
              fmtThen (pyFormatInt r.spare_0 "02X")
                (fmtThen (pyFormatInt r.spare_1 "02X") (.ok false))
            else .ok false
          else .ok true
    if !(CMD_SOUND_GROUPS.contains r.sound_group) && !quiet then
      fmtThen (pyFormatList CMD_SOUND_GROUPS "02X")
        (fmtThen (pyFormatInt r.sound_group "02X") afterGroup)
    else afterGroup

/-! ## String rendering: `Response._str_lamp` and `Response.__str__` -/

/-- The string produced by `_str_lamp`: the mapped state name, with
`ERR (0x%02X)` as the `.get` default for an unmapped code. -/
def strLamp (c : Nat) : String :=
  (LAMP_CMD_ARG_MAP c).getD ("ERR (0x" ++ hex2 c ++ ")")

/-- `_str_lamp` with the effect of the f-string in the `.get` default;
Python evaluates that default argument unconditionally before the lookup. -/
def strLampE (c : Nat) : Except PyError String :=
  fmtThen (pyFormatInt c "02X") (.ok (strLamp c))

/-- `Response.__str__`: runs `validate(True)` (the quiet mode), renders
the five channels through `_str_lamp`, formats the sound group with `02X`,
and renders the sound channel as `off` when falsy, else as `0x` followed by
its *decimal* digits (the f-string has no format spec there). -/
def Response.toStrE (r : Response) : Except PyError String :=
  match r.validateE true with
  | .error e => .error e
  | .ok is_valid =>
      fmtThen (strLampE r.lamp_state_red) <|
        fmtThen (strLampE r.lamp_state_amber) <|
          fmtThen (strLampE r.lamp_state_green) <|
            fmtThen (strLampE r.lamp_state_blue) <|
              fmtThen (strLampE r.lamp_state_white) <|
                fmtThen (pyFormatInt r.sound_group "02X") <|
                  .ok ("<Response" ++ (if is_valid then "" else " [Invalid]") ++
                    "| R: " ++ strLamp r.lamp_state_red ++
                    ", A: " ++ strLamp r.lamp_state_amber ++
                    ", G: " ++ strLamp r.lamp_state_green ++
                    ", B: " ++ strLamp r.lamp_state_blue ++
                    ", W: " ++ strLamp r.lamp_state_white ++
                    " | Sound (Grp. 0x" ++ hex2 r.sound_group ++ "): " ++
                    (if r.sound_channel = 0 then "off"
                     else "0x" ++ Nat.repr r.sound_channel) ++ ">")

/-! ## `_verify_lamp_state` and `set_lamp` -/

/-- `_verify_lamp_state(resp, expected_lamp_state)`: the square-bracket
dict lookup raises `KeyError` on a missing key; otherwise the result is the
equality of the red lamp state with the expected code. -/
def verify_lamp_state (resp : Response) (expected : Option String) :
    Except PyError Bool :=
  match LAMP_ARG_CMD_MAP expected with
  | none => .error .keyError
  | some c => .ok (decide (resp.lamp_state_red = c))

/-- `set_lamp(red_lamp_state)` with the transport exchange replaced by the
injected device `reply` (the network is external to this embedding): the
command frame is encoded with `write=True`, the reply is decoded into a
`Response`, and `_verify_lamp_state` compares its red byte against the
requested state. -/
def setLamp (red_lamp_state : Option String) (reply : List Nat) :
    Except PyError (Bool × Response) :=
  match formatMessage true red_lamp_state with
  | .error e => .error e
  | .ok _cmd =>
      match decode reply with
      | .error e => .error e
      | .ok resp =>
          match verify_lamp_state resp red_lamp_state with
          | .error e => .error e
          | .ok v => .ok (v, resp)

/-! ## Transport: `QLightST56EL._communicate` -/

/-- One network exchange as the embedding sees it: which socket operation
raises, and what `recv` returns when reached. -/
structure NetEnv where
  connectError : Option PyError
  sendError : Option PyError
  recvResult : Except PyError (List Nat)

/-- Outcome of `_communicate`: the returned bytes or the propagated
exception, and whether `sock.close()` was executed. -/
structure CommOutcome where
  result : Except PyError (List Nat)
  closeCalled : Bool

/-- `_communicate(cmd)`.  The source runs `connect`, `sendall`, `recv`,
`close` in a straight line with no `try`/`finally` and no `with` block, so
an exception from any of the three socket operations propagates before the
`close` line is reached. -/
def communicate (env : NetEnv) : CommOutcome :=
  match env.connectError with
  | some e => { result := .error e, closeCalled := false }
  | none =>
      match env.sendError with
      | some e => { result := .error e, closeCalled := false }
      | none =>
          match env.recvResult with
          | .error e => { result := .error e, closeCalled := false }
          | .ok resp => { result := .ok resp, closeCalled := true }

/-! ## Helper lemmas -/

/-- Peel one element off a list of known positive length. -/
theorem cons_of_len {α : Type} (n : Nat) (b : List α) (hb : b.length = n + 1) :
    ∃ x t, b = x :: t ∧ t.length = n := by
  cases b with
  | nil => simp at hb
  | cons x t => exact ⟨x, t, rfl, by simpa using hb⟩

/-- A list of length 10 is a ten-element literal. -/
theorem exists_ten {α : Type} (b : List α) (hb : b.length = 10) :
    ∃ a0 a1 a2 a3 a4 a5 a6 a7 a8 a9,
      b = [a0, a1, a2, a3, a4, a5, a6, a7, a8, a9] := by
  obtain ⟨a0, b, rfl, h0⟩ := cons_of_len 9 b (by omega)
  obtain ⟨a1, b, rfl, h1⟩ := cons_of_len 8 b (by omega)
  obtain ⟨a2, b, rfl, h2⟩ := cons_of_len 7 b (by omega)
  obtain ⟨a3, b, rfl, h3⟩ := cons_of_len 6 b (by omega)
  obtain ⟨a4, b, rfl, h4⟩ := cons_of_len 5 b (by omega)
  obtain ⟨a5, b, rfl, h5⟩ := cons_of_len 4 b (by omega)
  obtain ⟨a6, b, rfl, h6⟩ := cons_of_len 3 b (by omega)
  obtain ⟨a7, b, rfl, h7⟩ := cons_of_len 2 b (by omega)
  obtain ⟨a8, b, rfl, h8⟩ := cons_of_len 1 b (by omega)
  obtain ⟨a9, b, rfl, h9⟩ := cons_of_len 0 b (by omega)
  obtain rfl : b = [] := List.eq_nil_of_length_eq_zero h9
  exact ⟨a0, a1, a2, a3, a4, a5, a6, a7, a8, a9, rfl⟩

/-- `format(n, "02X")` succeeds and yields the zero-padded hex digits. -/
theorem pyFormatInt_02X (n : Nat) : pyFormatInt n "02X" = Except.ok (hex2 n) :=
  rfl

/-- `_str_lamp` never raises: its f-string spec `02X` is valid. -/
theorem strLampE_ok (c : Nat) : strLampE c = Except.ok (strLamp c) := rfl

/-- In quiet mode no diagnostic is formatted, so `validate` returns its
boolean decision without raising. -/
theorem validateE_quiet (r : Response) :
    r.validateE true = Except.ok r.validate := by
  unfold Response.validateE Response.validate
  simp only [Bool.not_true, Bool.and_false, Bool.false_eq_true, if_false]
  split
  · rfl
  · split
    · simp
    · split
      · simp_all
      · split <;> simp_all

/-! ## Claim theorems -/

/-- C1: decoding (`Response.__init__`) rejects every non-empty input whose
length is not 10 bytes with the length assertion (the spec failure
`MalformedResponse`), shown at 9 and 11 bytes; on the empty input, however,
the assertion passes and the constructor then raises `IndexError` at
`b[0]`, so the empty reply is NOT handled without crashing — evaluating the
code at the failing input exhibits the bug. -/
theorem c1_decode_length :
    decode (List.replicate 9 0) = Except.error PyError.assertionError ∧
    decode (List.replicate 11 0) = Except.error PyError.assertionError ∧
    decode [] = Except.error PyError.indexError :=
  ⟨rfl, rfl, rfl⟩

/-- C4: `_format_message` fails with the precondition assertion (the spec
failure `InvalidArgument`) exactly on the bad inputs: a lamp state supplied
on a read, a write with no lamp state, and a write with a lamp state
outside `{"off", "on", "blink"}`. -/
theorem c4_encode_invalid (s t : String)
    (hs : s = "off" ∨ s = "on" ∨ s = "blink")
    (ht : t ≠ "off" ∧ t ≠ "on" ∧ t ≠ "blink") :
    formatMessage false (some s) = Except.error PyError.assertionError ∧
    formatMessage true none = Except.error PyError.assertionError ∧
    formatMessage true (some t) = Except.error PyError.assertionError := by
  obtain ⟨ht1, ht2, ht3⟩ := ht
  refine ⟨?_, rfl, ?_⟩
  · rcases hs with rfl | rfl | rfl <;> rfl
  · simp [formatMessage, ARG_LAMP_OFF, ARG_LAMP_ON, ARG_LAMP_BLINK,
      ht1, ht2, ht3]

/-- C4 witness at the concrete inputs `"on"` (a valid state supplied on a
read) and `"purple"` (an unknown state supplied on a write). -/
theorem c4_encode_invalid_witness :
    formatMessage false (some "on") = Except.error PyError.assertionError ∧
    formatMessage true none = Except.error PyError.assertionError ∧
    formatMessage true (some "purple") = Except.error PyError.assertionError :=
  c4_encode_invalid "on" "purple" (Or.inr (Or.inl rfl))
    ⟨by decide, by decide, by decide⟩

/-- C5: for each valid lamp state, `_format_message(True, state)` is
exactly the write frame `[0x57, 0, code, 0, ..., 0]` with the mapped code
(off=0, on=1, blink=2), and `_format_message(False, None)` is exactly the
read frame `[0x52, 0, ..., 0]`; the encoder is a pure function, embedded
as a Lean function of its two arguments alone. -/
theorem c5_encode_frames (s : String) (c : Nat)
    (hs : (s = "off" ∧ c = 0) ∨ (s = "on" ∧ c = 1) ∨ (s = "blink" ∧ c = 2)) :
    formatMessage true (some s) =
      Except.ok [0x57, 0, c, 0, 0, 0, 0, 0, 0, 0] ∧
    formatMessage false none = Except.ok [0x52, 0, 0, 0, 0, 0, 0, 0, 0, 0] := by
  rcases hs with ⟨rfl, rfl⟩ | ⟨rfl, rfl⟩ | ⟨rfl, rfl⟩ <;> exact ⟨rfl, rfl⟩

/-- C5 witness at the concrete state `"blink"`. -/
theorem c5_encode_frames_witness :
    formatMessage true (some "blink") =
      Except.ok [0x57, 0, 2, 0, 0, 0, 0, 0, 0, 0] ∧
    formatMessage false none = Except.ok [0x52, 0, 0, 0, 0, 0, 0, 0, 0, 0] :=
  c5_encode_frames "blink" 2 (Or.inr (Or.inr ⟨rfl, rfl⟩))

/-- C6: on the reply `[0x00, 0, ..., 0]` in non-quiet mode, `validate` does
NOT return false with a diagnostic: formatting the not-an-ack message
raises `ValueError`, because its f-string uses the invalid format spec
`X02` (where every other diagnostic writes `02X`) — while the quiet run of
the same check returns false.  Likewise the non-fatal sound-group advisory
on `[0x41, 0x09, 0, ..., 0]` raises `TypeError`, because its f-string
formats the list `CMD_SOUND_GROUPS` with the spec `02X`.  This exhibits
the code bug against the claim that producing a diagnostic never raises. -/
theorem c6_diagnostic_raises :
    ∃ r r2,
      decode [0, 0, 0, 0, 0, 0, 0, 0, 0, 0] = Except.ok r ∧
      r.validateE false = Except.error PyError.valueError ∧
      r.validateE true = Except.ok false ∧
      decode [0x41, 9, 0, 0, 0, 0, 0, 0, 0, 0] = Except.ok r2 ∧
      r2.validateE false = Except.error PyError.typeError :=
  ⟨_, _, rfl, rfl, rfl, rfl, rfl⟩

/-- C7 counterexample: when `sock.connect` raises (refused connection),
`_communicate` propagates the exception without ever reaching the
`sock.close()` line, so the connection is NOT closed on that exit path —
refuting the claim that every exit path closes the connection. -/
theorem c7_close_counterexample :
    (communicate
        { connectError := some PyError.connectionError,
          sendError := none,
          recvResult := Except.ok [] }).closeCalled = false :=
  rfl

/-- C7 amended: `_communicate` closes the socket exactly on the normal
path — `close` is called iff connect, sendall and recv all succeed and the
call returns the received bytes; on every raising path the socket is left
unclosed. -/
theorem c7_close_iff_success (env : NetEnv) :
    (communicate env).closeCalled = true ↔
      ∃ resp, (communicate env).result = Except.ok resp := by
  unfold communicate
  rcases env with ⟨ce, se, rr⟩
  rcases ce with _ | e <;> rcases se with _ | e2 <;> rcases rr with e3 | resp <;>
    simp

/-- Characterization of the boolean decision of `validate`. -/
theorem validate_eq_true_iff (r : Response) :
    r.validate = true ↔
      (r.is_ack = true ∧ (∀ c ∈ r.lampStates, lampStateValid c = true) ∧
       (r.sound_channel = 0 ∨ CMD_SOUNDS.contains r.sound_channel = true) ∧
       r.spare_0 = 0 ∧ r.spare_1 = 0) := by
  unfold Response.validate
  cases hack : r.is_ack with
  | false => simp
  | true =>
    simp only [Bool.not_true, Bool.false_eq_true, if_false, true_and]
    rcases hf : r.lampStates.find? (fun c => !(lampStateValid c)) with _ | c
    · have hall : ∀ c ∈ r.lampStates, lampStateValid c = true := by
        rw [List.find?_eq_none] at hf
        intro c hc
        simpa using hf c hc
      simp only [hf, hall, implies_true, true_and]
      by_cases h7 : r.sound_channel = 0 <;>
        by_cases hco : CMD_SOUNDS.contains r.sound_channel = true <;>
          by_cases h8 : r.spare_0 = 0 <;>
            by_cases h9 : r.spare_1 = 0 <;>
              simp_all
    · have hc : lampStateValid c = false := by
        have := List.find?_some hf
        simpa using this
      have hmem := List.mem_of_find?_eq_some hf
      simp only [hf, Bool.false_eq_true, false_iff, not_and]
      intro hall
      exact absurd (hall c hmem) (by simp [hc])

/-- The boolean decision of `validate` reads no field other than the ack
flag, the five lamp states, the sound channel and the two spares — in
particular it never reads `sound_group`. -/
theorem validate_ignores_sound_group (r r2 : Response)
    (h1 : r2.is_ack = r.is_ack) (h2 : r2.lampStates = r.lampStates)
    (h3 : r2.sound_channel = r.sound_channel) (h4 : r2.spare_0 = r.spare_0)
    (h5 : r2.spare_1 = r.spare_1) : r2.validate = r.validate := by
  unfold Response.validate
  rw [h1, h2, h3, h4, h5]

/-- A lamp-state code is accepted iff it is OFF, ON or BLINK. -/
theorem lampStateValid_iff (c : Nat) :
    lampStateValid c = true ↔ (c = 0 ∨ c = 1 ∨ c = 2) := by
  simp [lampStateValid, CMD_LAMP_BLINK, CMD_LAMP_OFF, CMD_LAMP_ON]
  tauto

/-- Membership in `CMD_SOUNDS`, element by element. -/
theorem sounds_contains_iff (c : Nat) :
    CMD_SOUNDS.contains c = true ↔
      (c = 1 ∨ c = 2 ∨ c = 3 ∨ c = 4 ∨ c = 5) := by
  simp [CMD_SOUNDS]

/-- C2: for every 10-byte reply `[b0, ..., b9]`, the boolean result of
`validate` is true iff byte 0 is the ack marker 0x41, each of bytes 2-6 is
one of `{0, 1, 2}`, byte 7 is 0 or one of `{1, ..., 5}`, and bytes 8 and 9
are 0; and the sound-group byte (byte 1) never affects that boolean —
replacing it by ANY value `g`, in range or not, leaves `validate`
unchanged. -/
theorem c2_validate_iff (b0 b1 b2 b3 b4 b5 b6 b7 b8 b9 : Nat) :
    ∃ r, decode [b0, b1, b2, b3, b4, b5, b6, b7, b8, b9] = Except.ok r ∧
      (r.validate = true ↔
        (b0 = 0x41 ∧
         (b2 = 0 ∨ b2 = 1 ∨ b2 = 2) ∧ (b3 = 0 ∨ b3 = 1 ∨ b3 = 2) ∧
         (b4 = 0 ∨ b4 = 1 ∨ b4 = 2) ∧ (b5 = 0 ∨ b5 = 1 ∨ b5 = 2) ∧
         (b6 = 0 ∨ b6 = 1 ∨ b6 = 2) ∧
         (b7 = 0 ∨ b7 = 1 ∨ b7 = 2 ∨ b7 = 3 ∨ b7 = 4 ∨ b7 = 5) ∧
         b8 = 0 ∧ b9 = 0)) ∧
      (∀ g, ∃ r2, decode [b0, g, b2, b3, b4, b5, b6, b7, b8, b9] =
          Except.ok r2 ∧ r2.validate = r.validate) := by
  refine ⟨_, rfl, ?_, ?_⟩
  · rw [validate_eq_true_iff]
    show (decide (b0 = RESP_ACK) = true ∧
        (∀ c ∈ [b2, b3, b4, b5, b6], lampStateValid c = true) ∧
        (b7 = 0 ∨ CMD_SOUNDS.contains b7 = true) ∧ b8 = 0 ∧ b9 = 0) ↔ _
    simp only [decide_eq_true_eq, List.mem_cons, List.not_mem_nil, or_false,
      forall_eq_or_imp, forall_eq, lampStateValid_iff, sounds_contains_iff,
      RESP_ACK, and_assoc]
  · intro g
    exact ⟨_, rfl, validate_ignores_sound_group _ _ rfl rfl rfl rfl rfl⟩

/-- C3: round trip through `set_lamp`.  For every valid lamp state with
mapped code `c`, encoding the write and decoding a device echo whose ack
byte is 0x41 and whose red byte equals `c` yields verified = true, and the
echo also passes `validate`; decoding an echo whose red byte is any other
in-range code `c2` yields verified = false while `validate` still accepts
the reply as structurally valid. -/
theorem c3_roundtrip (s : String) (c c2 : Nat)
    (hs : (s = "off" ∧ c = 0) ∨ (s = "on" ∧ c = 1) ∨ (s = "blink" ∧ c = 2))
    (hc2 : c2 ≤ 2) (hne : c2 ≠ c) :
    (∃ r, setLamp (some s) [0x41, 0, c, 0, 0, 0, 0, 0, 0, 0] =
        Except.ok (true, r) ∧ r.validate = true) ∧
    (∃ r2, setLamp (some s) [0x41, 0, c2, 0, 0, 0, 0, 0, 0, 0] =
        Except.ok (false, r2) ∧ r2.validate = true) := by
  rcases hs with ⟨rfl, rfl⟩ | ⟨rfl, rfl⟩ | ⟨rfl, rfl⟩ <;>
    refine ⟨⟨_, rfl, rfl⟩, ?_⟩ <;>
      interval_cases c2 <;>
        first
          | exact absurd rfl hne
          | exact ⟨_, rfl, rfl⟩

/-- C3 witness: requesting ON and receiving the matching echo
`[0x41, 0, 1, 0, ..., 0]` verifies; receiving `[0x41, 0, 0, 0, ..., 0]`
(red OFF after requesting ON) does not verify, yet still validates. -/
theorem c3_roundtrip_witness :
    (∃ r, setLamp (some "on") [0x41, 0, 1, 0, 0, 0, 0, 0, 0, 0] =
        Except.ok (true, r) ∧ r.validate = true) ∧
    (∃ r2, setLamp (some "on") [0x41, 0, 0, 0, 0, 0, 0, 0, 0, 0] =
        Except.ok (false, r2) ∧ r2.validate = true) :=
  c3_roundtrip "on" 1 0 (Or.inr (Or.inl ⟨rfl, rfl⟩)) (by omega) (by omega)

/-- C8: decoding any 10-byte reply succeeds, whatever the byte values, and
the `Response` fields are exactly the positional bytes: ack iff byte 0 is
0x41, sound group is byte 1, the five lamp states are bytes 2-6, the sound
channel is byte 7, the spares are bytes 8 and 9.  Out-of-range values (such
as a lamp-state byte of 0xAA) are not rejected here — only `validate`
flags them. -/
theorem c8_decode_total (b0 b1 b2 b3 b4 b5 b6 b7 b8 b9 : Nat)
    (_hr : ∀ x ∈ [b0, b1, b2, b3, b4, b5, b6, b7, b8, b9], x < 256) :
    ∃ r, decode [b0, b1, b2, b3, b4, b5, b6, b7, b8, b9] = Except.ok r ∧
      r.buf = [b0, b1, b2, b3, b4, b5, b6, b7, b8, b9] ∧
      (r.is_ack = true ↔ b0 = 0x41) ∧
      r.sound_group = b1 ∧ r.lamp_state_red = b2 ∧ r.lamp_state_amber = b3 ∧
      r.lamp_state_green = b4 ∧ r.lamp_state_blue = b5 ∧
      r.lamp_state_white = b6 ∧ r.sound_channel = b7 ∧ r.spare_0 = b8 ∧
      r.spare_1 = b9 := by
  refine ⟨_, rfl, rfl, ?_, rfl, rfl, rfl, rfl, rfl, rfl, rfl, rfl, rfl⟩
  show decide (b0 = RESP_ACK) = true ↔ b0 = 0x41
  simp [RESP_ACK]

/-- C8 witness: a reply full of out-of-range field values (sound group
0x99, red lamp 0xAA, sound channel 0xFF, nonzero spares) still decodes
into positional fields without failing. -/
theorem c8_decode_total_witness :
    ∃ r, decode [0x41, 0x99, 0xAA, 3, 4, 5, 6, 0xFF, 7, 8] = Except.ok r ∧
      r.sound_group = 0x99 ∧ r.lamp_state_red = 0xAA ∧
      r.sound_channel = 0xFF ∧ r.spare_0 = 7 := by
  obtain ⟨r, hdec, _, _, h1, h2, _, _, _, _, h7, h8, _⟩ :=
    c8_decode_total 0x41 0x99 0xAA 3 4 5 6 0xFF 7 8 (by decide)
  exact ⟨r, hdec, h1, h2, h7, h8⟩

/-- C10: the verified flag of `set_lamp` depends only on byte 2 of the
reply.  For every requested state with code `c` and every 10-byte reply,
`set_lamp` returns verified = (byte 2 = c) — whatever bytes 0, 1, 3, ..., 9
hold, ack marker or not, validate-passing or not; the decoded response is
returned alongside, its red lamp state being byte 2. -/
theorem c10_verified_byte2 (s : String) (c : Nat)
    (hs : (s = "off" ∧ c = 0) ∨ (s = "on" ∧ c = 1) ∨ (s = "blink" ∧ c = 2))
    (b0 b1 b2 b3 b4 b5 b6 b7 b8 b9 : Nat) :
    ∃ r, setLamp (some s) [b0, b1, b2, b3, b4, b5, b6, b7, b8, b9] =
      Except.ok (decide (b2 = c), r) ∧ r.lamp_state_red = b2 := by
  rcases hs with ⟨rfl, rfl⟩ | ⟨rfl, rfl⟩ | ⟨rfl, rfl⟩ <;> exact ⟨_, rfl, rfl⟩

/-- C10 witness: the reply `[0, 0, 1, 0, ..., 0]` has byte 0 = 0 (not an
ack, so `validate` would reject it), yet requesting ON returns
verified = true because byte 2 matches. -/
theorem c10_verified_byte2_witness :
    ∃ r, setLamp (some "on") [0, 0, 1, 0, 0, 0, 0, 0, 0, 0] =
      Except.ok (true, r) ∧ r.lamp_state_red = 1 :=
  c10_verified_byte2 "on" 1 (Or.inr (Or.inl ⟨rfl, rfl⟩)) 0 0 1 0 0 0 0 0 0 0

/-- C9: the formatted representation of a decoded reply.  `_str_lamp`
renders any lamp-state code outside the command map (in particular every
code outside {0, 1, 2}) as the `ERR (0x%02X)` marker instead of raising,
and `__str__` never raises on a 10-byte reply: it returns the channel list
prefixed with the ` [Invalid]` marker exactly when the (quiet) `validate`
is false — the `if` on `r.validate` below carries that equivalence. -/
theorem c9_render (b0 b1 b2 b3 b4 b5 b6 b7 b8 b9 c : Nat)
    (hc : LAMP_CMD_ARG_MAP c = none) :
    strLamp c = "ERR (0x" ++ hex2 c ++ ")" ∧
    ∃ r, decode [b0, b1, b2, b3, b4, b5, b6, b7, b8, b9] = Except.ok r ∧
      r.toStrE = Except.ok ("<Response" ++
        (if r.validate = true then "" else " [Invalid]") ++
        "| R: " ++ strLamp r.lamp_state_red ++
        ", A: " ++ strLamp r.lamp_state_amber ++
        ", G: " ++ strLamp r.lamp_state_green ++
        ", B: " ++ strLamp r.lamp_state_blue ++
        ", W: " ++ strLamp r.lamp_state_white ++
        " | Sound (Grp. 0x" ++ hex2 r.sound_group ++ "): " ++
        (if r.sound_channel = 0 then "off"
         else "0x" ++ Nat.repr r.sound_channel) ++ ">") := by
  constructor
  · rw [strLamp, hc]
    rfl
  · refine ⟨_, rfl, ?_⟩
    unfold Response.toStrE
    rw [validateE_quiet]
    simp only [strLampE_ok, pyFormatInt_02X, fmtThen]

/-- C9 witness: the reply `[0x41, 3, 7, 0, ..., 0]` carries the
out-of-range red lamp code 7; its rendering succeeds, shows the
`ERR (0x07)` marker and the ` [Invalid]` prefix. -/
theorem c9_render_witness :
    strLamp 7 = "ERR (0x" ++ hex2 7 ++ ")" ∧
    ∃ r, decode [0x41, 3, 7, 0, 0, 0, 0, 0, 0, 0] = Except.ok r ∧
      r.toStrE = Except.ok
        "<Response [Invalid]| R: ERR (0x07), A: off, G: off, B: off, W: off | Sound (Grp. 0x03): off>" := by
  obtain ⟨herr, r, hdec, hstr⟩ := c9_render 0x41 3 7 0 0 0 0 0 0 0 7 rfl
  have h0 : decode [0x41, 3, 7, 0, 0, 0, 0, 0, 0, 0] =
      Except.ok { buf := [0x41, 3, 7, 0, 0, 0, 0, 0, 0, 0], is_ack := true,
                  sound_group := 3, lamp_state_red := 7, lamp_state_amber := 0,
                  lamp_state_green := 0, lamp_state_blue := 0,
                  lamp_state_white := 0, sound_channel := 0, spare_0 := 0,
                  spare_1 := 0 } := rfl
  rw [h0] at hdec
  injection hdec with hr2
  subst hr2
  refine ⟨herr, _, h0, ?_⟩
  rw [hstr]
  rfl
